import Mathlib

/-!
# currency-watcher: a shallow embedding of `main.go`

The program polls an exchange-rate service, compares the rate of the target
currency with a threshold and, once the rate is above it, sends one Telegram
message and exits.

Conventions of the embedding:

* a Go `string` is a Lean `String`; where the code looks at bytes
  (`strconv`), the string is read through `goBytes`, its UTF-8 bytes;
* a `float64` is its 64-bit IEEE-754 pattern (`Float64.bits`);
* `int`, `int64` and `time.Duration` are `Int`, wrapped to 64 bits where the
  code can overflow (`wrapInt64`);
* the results of `fmt.Sprintf`, `fmt.Errorf` and of the `log` calls are kept
  symbolically, as the format string with its arguments (`Formatted`);
* the network is an input: each call of `checkAndNotify` receives the outcome
  of its `http.Get` and of its `http.PostForm` (`CheckInput`), and reports the
  requests it made and the lines it logged as a list of `Event`s.
-/

namespace CurrencyWatcher

/-! ## float64 -/

/-- A `float64`, as its IEEE-754 binary64 bit pattern (read modulo `2^64`). -/
structure Float64 where
  bits : Nat
  deriving DecidableEq, Repr

namespace Float64

/-- The sign bit. -/
def signBit (f : Float64) : Bool := f.bits / 2 ^ 63 % 2 == 1

/-- The 11-bit biased exponent field. -/
def expField (f : Float64) : Nat := f.bits / 2 ^ 52 % 2 ^ 11

/-- The 52-bit fraction field. -/
def fracField (f : Float64) : Nat := f.bits % 2 ^ 52

/-- Not-a-number: exponent all ones, fraction non-zero. -/
def isNaN (f : Float64) : Bool := f.expField == 2047 && f.fracField != 0

/-- An infinity: exponent all ones, fraction zero. -/
def isInf (f : Float64) : Bool := f.expField == 2047 && f.fracField == 0

/-- A finite number: neither an infinity nor a NaN. -/
def isFinite (f : Float64) : Bool := f.expField != 2047

/-- The 63 magnitude bits, signed: an integer whose order is the order of the
non-NaN values (both zeros map to `0`). -/
def key (f : Float64) : Int :=
  if f.signBit then -((f.bits % 2 ^ 63 : Nat) : Int) else ((f.bits % 2 ^ 63 : Nat) : Int)

/-- Go's `a == b` on `float64`: false as soon as one operand is a NaN, true on
the two zeros. -/
def eq (a b : Float64) : Bool := !a.isNaN && !b.isNaN && decide (a.key = b.key)

/-- Go's `a > b` on `float64`: false as soon as one operand is a NaN. -/
def gt (a b : Float64) : Bool := !a.isNaN && !b.isNaN && decide (b.key < a.key)

/-- The rational value of a finite `float64` (`0` on infinities and NaNs). -/
def toRat (f : Float64) : ℚ :=
  if f.expField = 2047 then 0
  else
    let m : ℚ := if f.expField = 0 then f.fracField else 2 ^ 52 + f.fracField
    let e : Int := if f.expField = 0 then -1074 else (f.expField : Int) - 1075
    (if f.signBit then -1 else 1) * m * (2 : ℚ) ^ e

/-- The value of the magnitude bits `mag` of a finite `float64`, in units of
`2 ^ (-1075)`: twice the fraction for a subnormal, and the mantissa with its
implicit bit, shifted by the exponent field, otherwise. -/
def weight (mag : Nat) : Nat :=
  if mag / 2 ^ 52 = 0 then 2 * (mag % 2 ^ 52) else (2 ^ 52 + mag % 2 ^ 52) * 2 ^ (mag / 2 ^ 52)

/-- `math.NaN()`. -/
def NaN : Float64 := ⟨0x7FF8000000000001⟩

/-- `math.Inf(sign)`: `+Inf` for `sign >= 0`, `-Inf` otherwise. -/
def Inf (sign : Int) : Float64 :=
  if 0 ≤ sign then ⟨0x7FF0000000000000⟩ else ⟨0xFFF0000000000000⟩

end Float64

/-! ## Go strings as bytes -/

/-- The UTF-8 encoding of one character, as bytes. -/
def utf8Char (c : Char) : List Nat :=
  let n := c.toNat
  if n < 0x80 then [n]
  else if n < 0x800 then [0xC0 + n / 0x40, 0x80 + n % 0x40]
  else if n < 0x10000 then [0xE0 + n / 0x1000, 0x80 + n / 0x40 % 0x40, 0x80 + n % 0x40]
  else [0xF0 + n / 0x40000, 0x80 + n / 0x1000 % 0x40, 0x80 + n / 0x40 % 0x40, 0x80 + n % 0x40]

/-- The bytes of a Go string. -/
def goBytes (s : String) : List Nat := s.toList.flatMap utf8Char

/-- The function `lower` of `strconv`: `c | ('x' - 'X')`, i.e. bit `0x20` set. -/
def lower (c : Nat) : Nat := if c / 0x20 % 2 = 0 then c + 0x20 else c

/-! ## strconv errors -/

/-- The two `strconv` errors a decimal conversion can wrap. -/
inductive ErrKind where
  | ErrSyntax
  | ErrRange
  deriving DecidableEq, Repr

/-- A `*strconv.NumError`. -/
structure NumError where
  Func : String
  Num : String
  Err : ErrKind
  deriving DecidableEq, Repr

/-- `strconv.syntaxError`. -/
def syntaxError (fn str : String) : NumError := ⟨fn, str, .ErrSyntax⟩

/-- `strconv.rangeError`. -/
def rangeError (fn str : String) : NumError := ⟨fn, str, .ErrRange⟩

/-! ## strconv.Atoi (64-bit `int`) -/

/-- The digit loop of the fast path of `Atoi`: `none` on a byte that is not a
decimal digit. -/
def atoiDigits : List Nat → Nat → Option Nat
  | [], n => some n
  | ch :: rest, n =>
    if ch < 0x30 ∨ 0x39 < ch then none else atoiDigits rest (n * 10 + (ch - 0x30))

/-- The digit loop of `ParseUint` for base 10 and bit size 64, without
underscores (`base0` is false): `cutoff = maxUint64/10 + 1`. A letter is a
digit of value at least 10, which base 10 refuses like any other byte. -/
def parseUintDigits (s0 : String) : List Nat → Nat → Except NumError Nat
  | [], n => .ok n
  | c :: rest, n =>
    if 0x30 ≤ c ∧ c ≤ 0x39 then
      if n ≥ (2 ^ 64 - 1) / 10 + 1 then .error (rangeError "ParseUint" s0)
      else if n * 10 + (c - 0x30) > 2 ^ 64 - 1 then .error (rangeError "ParseUint" s0)
      else parseUintDigits s0 rest (n * 10 + (c - 0x30))
    else .error (syntaxError "ParseUint" s0)

/-- `strconv.ParseUint(s, 10, 0)` with `IntSize = 64`, on the bytes of `s`. -/
def ParseUint10 (s0 : String) (s : List Nat) : Except NumError Nat :=
  if s = [] then .error (syntaxError "ParseUint" s0)
  else parseUintDigits s0 s 0

/-- `strconv.ParseInt(s, 10, 0)` with `IntSize = 64`. A range error of
`ParseUint` comes with the value `maxUint64`, which is beyond both cutoffs of
`ParseInt`, so it ends as a range error of `ParseInt`. -/
def ParseInt10 (s0 : String) : Except NumError Int :=
  match goBytes s0 with
  | [] => .error (syntaxError "ParseInt" s0)
  | c :: rest =>
    let neg := c = 0x2D
    let s := if c = 0x2B ∨ c = 0x2D then rest else c :: rest
    match ParseUint10 s0 s with
    | .error e =>
      if e.Err ≠ .ErrRange then .error ⟨"ParseInt", s0, e.Err⟩
      else .error (rangeError "ParseInt" s0)
    | .ok un =>
      if ¬ neg ∧ un ≥ 2 ^ 63 then .error (rangeError "ParseInt" s0)
      else if neg ∧ un > 2 ^ 63 then .error (rangeError "ParseInt" s0)
      else .ok (if neg then -(un : Int) else (un : Int))

/-- `strconv.Atoi` on a 64-bit platform: the fast path for strings of 1 to 18
bytes, `ParseInt(s, 10, 0)` otherwise, its error renamed to `Atoi`. -/
def Atoi (s0 : String) : Except NumError Int :=
  let b := goBytes s0
  if 0 < b.length ∧ b.length < 19 then
    match b with
    | [] => .error (syntaxError "Atoi" s0)
    | c :: rest =>
      let s := if c = 0x2D ∨ c = 0x2B then rest else c :: rest
      if s.length < 1 then .error (syntaxError "Atoi" s0)
      else
        match atoiDigits s 0 with
        | none => .error (syntaxError "Atoi" s0)
        | some n => .ok (if c = 0x2D then -(n : Int) else (n : Int))
  else
    match ParseInt10 s0 with
    | .error e => .error { e with Func := "Atoi" }
    | .ok i => .ok i

/-- The byte is one of `0`..`9`. -/
def isDecimalDigit (c : Nat) : Bool := decide (0x30 ≤ c) && decide (c ≤ 0x39)

/-- The bytes spell a decimal integer: an optional sign and one digit or more. -/
def integerSyntax (b : List Nat) : Bool :=
  match b with
  | [] => false
  | c :: rest =>
    if c = 0x2B ∨ c = 0x2D then !rest.isEmpty && rest.all isDecimalDigit
    else (c :: rest).all isDecimalDigit

/-! ## strconv.ParseFloat (bit size 64) -/

/-- `strconv.commonPrefixLenIgnoreCase`: the length of the common prefix of `s`
and the lower-case `pre`, the case of the letters `A`..`Z` of `s` ignored. -/
def commonPrefixLenIgnoreCase : List Nat → List Nat → Nat
  | c :: s, p :: pre =>
    let c1 := if 0x41 ≤ c ∧ c ≤ 0x5A then c + 0x20 else c
    if c1 ≠ p then 0 else commonPrefixLenIgnoreCase s pre + 1
  | _, _ => 0

/-- The infinity case of `strconv.special`, reached on a sign (which falls
through) and on `i`/`I`: `s` is what follows the sign. -/
def specialInf (sign : Int) (nsign : Nat) (s : List Nat) : Option (Float64 × Nat) :=
  let n := commonPrefixLenIgnoreCase s (goBytes "infinity")
  let n := if 3 < n ∧ n < 8 then 3 else n
  if n = 3 ∨ n = 8 then some (Float64.Inf sign, nsign + n) else none

/-- `strconv.special`: the value and the number of bytes read when `s` starts
with a spelling of an infinity or of NaN. -/
def special (s : List Nat) : Option (Float64 × Nat) :=
  match s with
  | [] => none
  | c :: rest =>
    if c = 0x2B then specialInf 1 1 rest
    else if c = 0x2D then specialInf (-1) 1 rest
    else if c = 0x69 ∨ c = 0x49 then specialInf 1 0 (c :: rest)
    else if c = 0x6E ∨ c = 0x4E then
      if commonPrefixLenIgnoreCase (c :: rest) (goBytes "nan") = 3 then some (Float64.NaN, 3)
      else none
    else none

/-- `strconv.underscoreOK` after the optional sign and base prefix: `saw` is
`0x30` after a digit or the prefix, `0x5F` after an underscore, `0x5E` at the
start and `0x21` after anything else. -/
def underscoreLoop (hex : Bool) : List Nat → Nat → Bool
  | [], saw => saw != 0x5F
  | c :: rest, saw =>
    if (0x30 ≤ c ∧ c ≤ 0x39) ∨ (hex = true ∧ 0x61 ≤ lower c ∧ lower c ≤ 0x66) then
      underscoreLoop hex rest 0x30
    else if c = 0x5F then
      if saw ≠ 0x30 then false else underscoreLoop hex rest 0x5F
    else if saw = 0x5F then false
    else underscoreLoop hex rest 0x21

/-- `strconv.underscoreOK`: underscores only between digits, or between the
base prefix and a digit. -/
def underscoreOK (s : List Nat) : Bool :=
  let s := match s with
    | c :: rest => if c = 0x2D ∨ c = 0x2B then rest else c :: rest
    | [] => []
  match s with
  | c0 :: c1 :: rest =>
    if c0 = 0x30 ∧ (lower c1 = 0x62 ∨ lower c1 = 0x6F ∨ lower c1 = 0x78) then
      underscoreLoop (lower c1 == 0x78) rest 0x30
    else underscoreLoop false (c0 :: c1 :: rest) 0x5E
  | s => underscoreLoop false s 0x5E

/-- The variables of the digit loop of `strconv.readFloat`. The mantissa is
kept whole: the code keeps its first 19 (hexadecimal: 16) digits and a flag
`trunc` for the rest, and reads the digits again where they matter. -/
structure Digits where
  mantissa : Nat := 0
  nd : Nat := 0
  dp : Int := 0
  sawdot : Bool := false
  sawdigits : Bool := false
  underscores : Bool := false
  deriving DecidableEq, Repr

/-- The digit loop of `strconv.readFloat` (label `loop`): returns the
variables and the bytes left, the first of which stopped the loop. -/
def readDigits (base : Nat) : List Nat → Digits → Digits × List Nat
  | [], d => (d, [])
  | c :: rest, d =>
    if c = 0x5F then readDigits base rest { d with underscores := true }
    else if c = 0x2E then
      if d.sawdot then (d, c :: rest)
      else readDigits base rest { d with sawdot := true, dp := d.nd }
    else if 0x30 ≤ c ∧ c ≤ 0x39 then
      if c = 0x30 ∧ d.nd = 0 then
        readDigits base rest { d with sawdigits := true, dp := d.dp - 1 }
      else
        readDigits base rest
          { d with sawdigits := true, nd := d.nd + 1, mantissa := d.mantissa * base + (c - 0x30) }
    else if base = 16 ∧ 0x61 ≤ lower c ∧ lower c ≤ 0x66 then
      readDigits base rest
        { d with sawdigits := true, nd := d.nd + 1, mantissa := d.mantissa * 16 + (lower c - 0x61 + 10) }
    else (d, c :: rest)

/-- The digits of the exponent of `strconv.readFloat`: `e` stops growing once it
is `10000` or more. Returns `e`, whether an underscore was read, and the bytes
left. -/
def readExpDigits : List Nat → Nat → Bool → Nat × Bool × List Nat
  | [], e, u => (e, u, [])
  | c :: rest, e, u =>
    if c = 0x5F then readExpDigits rest e true
    else if 0x30 ≤ c ∧ c ≤ 0x39 then
      readExpDigits rest (if e < 10000 then e * 10 + (c - 0x30) else e) u
    else (e, u, c :: rest)

/-- What `strconv.readFloat` returns when `ok`: the number read is
`mantissa * 10 ^ exp` (hexadecimal: `mantissa * 2 ^ exp`), negated when `neg`;
`rest` is what follows the `n` bytes read. -/
structure ReadFloat where
  mantissa : Nat
  exp : Int
  neg : Bool
  hex : Bool
  rest : List Nat
  deriving DecidableEq, Repr

/-- `strconv.readFloat`; `none` when the code returns `ok = false`. -/
def readFloat (s : List Nat) : Option ReadFloat :=
  match s with
  | [] => none
  | c :: t =>
    let neg := c = 0x2D
    let s1 := if c = 0x2B ∨ c = 0x2D then t else c :: t
    -- base prefix: `i+2 < len(s) && s[i] == '0' && lower(s[i+1]) == 'x'`
    let hex : Bool := match s1 with
      | c0 :: c1 :: _ :: _ => c0 = 0x30 ∧ lower c1 = 0x78
      | _ => false
    let base := if hex then 16 else 10
    let expChar := if hex then 0x70 else 0x65
    let s2 := if hex then s1.drop 2 else s1
    let (d, s3) := readDigits base s2 {}
    if ¬ d.sawdigits then none
    else
      let dp : Int := if d.sawdot then d.dp else d.nd
      let dp := if hex then dp * 4 else dp
      let ndMant : Int := if hex then (d.nd : Int) * 4 else d.nd
      -- optional exponent
      let expo : Option (Int × Bool × List Nat) :=
        match s3 with
        | c :: s4 =>
          if lower c = expChar then
            match s4 with
            | [] => none
            | c2 :: s5 =>
              let esign : Int := if c2 = 0x2D then -1 else 1
              let s6 := if c2 = 0x2B ∨ c2 = 0x2D then s5 else c2 :: s5
              match s6 with
              | [] => none
              | c3 :: _ =>
                if c3 < 0x30 ∨ 0x39 < c3 then none
                else
                  let (e, u, s7) := readExpDigits s6 0 d.underscores
                  some (dp + (e : Int) * esign, u, s7)
          else if hex then none
          else some (dp, d.underscores, c :: s4)
        | [] => if hex then none else some (dp, d.underscores, [])
      match expo with
      | none => none
      | some (dp, underscores, rest) =>
        let exp : Int := if d.mantissa ≠ 0 then dp - ndMant else 0
        if underscores ∧ ¬ underscoreOK (s.take (s.length - rest.length)) then none
        else some ⟨d.mantissa, exp, neg, hex, rest⟩

/-- The loop of `floorLog2`, at most `fuel` halvings. -/
def log2Fuel : Nat → Nat → Nat
  | 0, _ => 0
  | fuel + 1, n => if n < 2 then 0 else log2Fuel fuel (n / 2) + 1

/-- The position of the highest set bit of `n`: the floor of its binary
logarithm (`0` for `n = 0`). -/
def floorLog2 (n : Nat) : Nat := log2Fuel n n

/-- The magnitude bits (biased exponent and fraction, 63 bits) of the binary64
number nearest to `num / den` (`den > 0`), ties to the even mantissa, the
exponent unbounded above: with `E` the binary exponent of `num / den`, at
least `-1022`, and `m` the quotient `num / den / 2 ^ (E - 52)` rounded to an
integer, the bits are `(E + 1022) * 2 ^ 52 + m`, which also covers a subnormal
`m < 2 ^ 52` and the carry `m = 2 ^ 53`. -/
def roundMagnitude (num den : Nat) : Nat :=
  if num = 0 then 0
  else
    let e0 : Int := (floorLog2 num : Int) - (floorLog2 den : Int)
    -- `2 ^ e0 ≤ num / den`?
    let ge : Bool := if 0 ≤ e0 then den * 2 ^ e0.toNat ≤ num else den ≤ num * 2 ^ (-e0).toNat
    let e2 : Int := if ge then e0 else e0 - 1
    let E : Int := max e2 (-1022)
    let q : Int := E - 52
    let N := if 0 ≤ q then num else num * 2 ^ (-q).toNat
    let D := if 0 ≤ q then den * 2 ^ q.toNat else den
    let quo := N / D
    let rem := N % D
    let m := if D < 2 * rem ∨ (2 * rem = D ∧ quo % 2 = 1) then quo + 1 else quo
    (E + 1022).toNat * 2 ^ 52 + m

/-- The `float64` nearest to `num / den` (`den > 0`), ties to the even
mantissa, with the sign `neg`; the flag says that the value is beyond the
largest finite number by half a unit in the last place or more, in which case
the result is the infinity. This is what `atof64` computes from the digits
(exact arithmetic, Eisel-Lemire, or the `decimal` fallback) and what `atofHex`
computes from a hexadecimal mantissa. -/
def roundToFloat64 (neg : Bool) (num den : Nat) : Float64 × Bool :=
  let s := if neg then 2 ^ 63 else 0
  let mag := roundMagnitude num den
  if 2047 * 2 ^ 52 ≤ mag then (⟨s + 2047 * 2 ^ 52⟩, true) else (⟨s + mag⟩, false)

/-- `strconv.atof64` after `readFloat`: the value of the digits read, rounded. -/
def floatOfDigits (r : ReadFloat) : Float64 × Bool :=
  let b := if r.hex then 2 else 10
  if 0 ≤ r.exp then roundToFloat64 r.neg (r.mantissa * b ^ r.exp.toNat) 1
  else roundToFloat64 r.neg r.mantissa (b ^ (-r.exp).toNat)

/-- `strconv.ParseFloat(s, 64)`: a spelling of an infinity or of NaN, or a
decimal or hexadecimal floating-point number; a syntax error unless the whole
string is read, a range error when the number rounds to an infinity. -/
def ParseFloat (s : String) : Except NumError Float64 :=
  let b := goBytes s
  match special b with
  | some (f, n) => if n ≠ b.length then .error (syntaxError "ParseFloat" s) else .ok f
  | none =>
    match readFloat b with
    | none => .error (syntaxError "ParseFloat" s)
    | some r =>
      if r.rest ≠ [] then .error (syntaxError "ParseFloat" s)
      else
        let (f, ovf) := floatOfDigits r
        if ovf then .error (rangeError "ParseFloat" s) else .ok f

deriving instance DecidableEq for Except

/-! ## fmt, errors and the observable events -/

/-- An operand of a `fmt` verb (`%s`, `%d`, `%.4f`, `%v`). -/
inductive Arg where
  | str (s : String)
  | int (n : Int)
  | float (f : Float64)
  | duration (d : Int)
  /-- The text `time.Now().Format("2006-01-02 15:04:05")`. -/
  | now
  deriving DecidableEq, Repr

/-- The text `fmt.Sprintf(format, args...)`, kept as its format and operands. -/
structure Formatted where
  format : String
  args : List Arg
  deriving DecidableEq, Repr

/-- A Go `error` value of this program. -/
inductive GoError where
  /-- A `*strconv.NumError`. -/
  | numError (e : NumError)
  /-- An error returned by `net/http`, `encoding/json` or `io`. -/
  | external (msg : String)
  /-- The error `fmt.Errorf(format, args...)`, no operand being an error. -/
  | errorf (format : String) (args : List Arg)
  /-- The error `fmt.Errorf(format, err)` whose format ends in `%w`. -/
  | wrap (format : String) (err : GoError)
  deriving DecidableEq, Repr

/-- An operand of a `log` call: a value or an error. -/
inductive LogArg where
  | val (a : Arg)
  | err (e : GoError)
  deriving DecidableEq, Repr

/-- What the program does to the outside world, in order. -/
inductive Event where
  /-- The request `http.Get(url)` to the rate service. -/
  | httpGet (url : String)
  /-- The request `http.PostForm(url, {chat_id, text, parse_mode})`. -/
  | httpPostForm (url : String) (chat_id : String) (text : Formatted) (parse_mode : String)
  /-- A line written by `log.Printf`, `log.Println` or `log.Fatalf`. -/
  | log (format : String) (args : List LogArg)
  /-- A line written by `fmt.Printf` on standard output. -/
  | print (format : String) (args : List Arg)
  /-- One value received from `ticker.C`: the wait for the next tick. -/
  | tick
  deriving DecidableEq, Repr

/-- The event is a request to the rate service. -/
def Event.isRateRequest : Event → Bool
  | .httpGet _ => true
  | _ => false

/-- The event is a request to the messaging service. -/
def Event.isNotification : Event → Bool
  | .httpPostForm _ _ _ _ => true
  | _ => false

/-- The number of notification requests in a trace. -/
def notifications (t : List Event) : Nat := t.countP Event.isNotification

/-- The number of rate requests in a trace. -/
def rateRequests (t : List Event) : Nat := t.countP Event.isRateRequest

/-! ## Configuration -/

/-- The process environment: `os.LookupEnv`. -/
abbrev Env := String → Option String

/-- `os.Getenv`: the value, or the empty string when the variable is unset. -/
def Getenv (env : Env) (key : String) : String := (env key).getD ""

/-- The function `getEnv` of `main.go`. -/
def getEnv (env : Env) (key fallback : String) : String :=
  match env key with
  | some value => value
  | none => fallback

/-- Conversion to `int64`: the value modulo `2^64`, in `[-2^63, 2^63)`. -/
def wrapInt64 (x : Int) : Int := (x + 2 ^ 63) % 2 ^ 64 - 2 ^ 63

/-- `time.Minute`, in nanoseconds. -/
def Minute : Int := 60000000000

/-- The struct `Config` of `main.go`; `CheckInterval` is a `time.Duration`, a
number of nanoseconds. -/
structure Config where
  ApiKey : String
  TelegramToken : String
  TelegramChatID : String
  NotificationThreshold : Float64
  CheckInterval : Int
  BaseCurrency : String
  TargetCurrency : String
  deriving DecidableEq, Repr

/-- The variable `intervalMinutes` of `loadConfig`: `CHECK_INTERVAL_MINUTES`,
or "15" when it is unset, read by `strconv.Atoi`; 15 when `Atoi` returns an error. -/
def intervalMinutes (env : Env) : Int :=
  let intervalStr := getEnv env "CHECK_INTERVAL_MINUTES" "15"
  match Atoi intervalStr with
  | .error _ => 15
  | .ok n => n

/-- The function `loadConfig` of `main.go`. The interval is
`time.Duration(intervalMinutes) * time.Minute`, a product of `int64`. -/
def loadConfig (env : Env) : Except GoError Config :=
  let apiKey := Getenv env "API_KEY"
  if apiKey = "" then
    .error (.errorf "la variabile d'ambiente API_KEY non è impostata" [])
  else
    let token := Getenv env "TELEGRAM_TOKEN"
    if token = "" then
      .error (.errorf "la variabile d'ambiente TELEGRAM_TOKEN non è impostata" [])
    else
      let chatID := Getenv env "TELEGRAM_CHAT_ID"
      if chatID = "" then
        .error (.errorf "la variabile d'ambiente TELEGRAM_CHAT_ID non è impostata" [])
      else
        let thresholdStr := Getenv env "NOTIFICATION_THRESHOLD"
        if thresholdStr = "" then
          .error (.errorf "la variabile d'ambiente NOTIFICATION_THRESHOLD non è impostata" [])
        else
          match ParseFloat thresholdStr with
          | .error err =>
            .error (.wrap "valore non valido per NOTIFICATION_THRESHOLD: %w" (.numError err))
          | .ok threshold =>
            .ok {
              ApiKey := apiKey
              TelegramToken := token
              TelegramChatID := chatID
              NotificationThreshold := threshold
              CheckInterval := wrapInt64 (wrapInt64 (intervalMinutes env) * Minute)
              BaseCurrency := getEnv env "BASE_CURRENCY" "GBP"
              TargetCurrency := getEnv env "TARGET_CURRENCY" "EUR" }

/-! ## The rate service and the messaging service -/

/-- The struct `ApiResponse` of `main.go`. `ConversionRates` is a Go map:
`none` is the nil map of a response without `conversion_rates`, and the list
holds the entries of a non-nil map. -/
structure ApiResponse where
  Result : String
  ConversionRates : Option (List (String × Float64))
  ErrorType : String
  deriving DecidableEq, Repr

/-- The map index expression `m[key]` with its `ok`: `none` when the map is nil
or has no entry for `key`. -/
def mapIndex (m : Option (List (String × Float64))) (key : String) : Option Float64 :=
  match m with
  | none => none
  | some entries => entries.lookup key

/-- The outcome of `http.Get` followed by the JSON decoding of the body. -/
inductive GetResult where
  /-- The request `http.Get` returned the error `err`. -/
  | failed (err : GoError)
  /-- The decoder returned the error `err`. -/
  | undecodable (err : GoError)
  /-- The body decoded into `r`. -/
  | decoded (r : ApiResponse)
  deriving DecidableEq, Repr

/-- The outcome of `http.PostForm`. -/
inductive PostResult where
  /-- The request returned the error `err`. -/
  | failed (err : GoError)
  /-- A response with status `StatusCode`, `body` being what `io.ReadAll` read. -/
  | response (StatusCode : Int) (body : String)
  deriving DecidableEq, Repr

/-- What the network answers during one call of `checkAndNotify`: `post` is the
outcome of the notification request, used only if one is made. -/
structure CheckInput where
  get : GetResult
  post : PostResult
  deriving DecidableEq, Repr

/-- `http.StatusOK`. -/
def StatusOK : Int := 200

/-- The function `sendTelegramNotification` of `main.go`: the error returned
(`none` for nil) and the request made. -/
def sendTelegramNotification (cfg : Config) (message : Formatted) (post : PostResult) :
    Option GoError × List Event :=
  let apiURL := "https://api.telegram.org/bot" ++ cfg.TelegramToken ++ "/sendMessage"
  let request := [Event.httpPostForm apiURL cfg.TelegramChatID message "Markdown"]
  match post with
  | .failed err =>
    (some (.wrap "errore durante l'invio della richiesta a Telegram: %w" err), request)
  | .response StatusCode body =>
    if StatusCode ≠ StatusOK then
      (some (.errorf "telegram ha restituito un errore (%d): %s" [.int StatusCode, .str body]),
        request)
    else (none, request)

/-- The URL that `checkAndNotify` requests. -/
def rateURL (cfg : Config) : String :=
  "https://v6.exchangerate-api.com/v6/" ++ cfg.ApiKey ++ "/latest/" ++ cfg.BaseCurrency

/-- The text `messaggio` that `checkAndNotify` sends for the rate `tassoAttuale`. -/
def messaggio (cfg : Config) (tassoAttuale : Float64) : Formatted :=
  ⟨"🔔 *Allerta Cambio %s/%s!*\n\nIl tasso ha superato la soglia di *%.4f*.\n\nValore attuale: `1 %s = %.4f %s`",
    [.str cfg.BaseCurrency, .str cfg.TargetCurrency, .float cfg.NotificationThreshold,
      .str cfg.BaseCurrency, .float tassoAttuale, .str cfg.TargetCurrency]⟩

/-- The line `checkAndNotify` logs after `sendTelegramNotification` returned `err`. -/
def notifyLog (err : Option GoError) : Event :=
  match err with
  | some err => .log "ERRORE: Impossibile inviare la notifica su Telegram: %v" [.err err]
  | none => .log "Notifica inviata con successo. Lo script terminerà." []

/-- The function `checkAndNotify` of `main.go`: the result `stop`, and the
requests made and lines written, in order. -/
def checkAndNotify (cfg : Config) (inp : CheckInput) : Bool × List Event :=
  let get := [Event.httpGet (rateURL cfg)]
  match inp.get with
  | .failed err =>
    (false, get ++ [.log "Errore durante la richiesta HTTP: %v" [.err err]])
  | .undecodable err =>
    (false, get ++ [.log "Errore durante la decodifica del JSON: %v" [.err err]])
  | .decoded apiResponse =>
    if apiResponse.Result ≠ "success" then
      (false, get ++ [.log "L'API di cambio ha restituito un errore: %s"
        [.val (.str apiResponse.ErrorType)]])
    else
      match mapIndex apiResponse.ConversionRates cfg.TargetCurrency with
      | none =>
        (false, get ++ [.log "Errore: la valuta '%s' non è stata trovata."
          [.val (.str cfg.TargetCurrency)]])
      | some tassoAttuale =>
        let printed := [Event.print "[%s] Tasso attuale: 1 %s = %.4f %s\n"
          [.now, .str cfg.BaseCurrency, .float tassoAttuale, .str cfg.TargetCurrency]]
        if tassoAttuale.gt cfg.NotificationThreshold then
          let sent := sendTelegramNotification cfg (messaggio cfg tassoAttuale) inp.post
          (true, get ++ printed ++
            [.log "--- SOGLIA SUPERATA! --- Invio notifica su Telegram..." []] ++
            sent.2 ++ [notifyLog sent.1])
        else (false, get ++ printed)

/-! ## The poll loop of `main` -/

/-- The two states of the poll loop. -/
inductive Phase where
  | RUNNING
  | STOPPED
  deriving DecidableEq, Repr

/-- The state of the poll loop: its phase, the number of calls of
`checkAndNotify` made so far, and the events so far. -/
structure LoopState where
  phase : Phase
  checks : Nat
  trace : List Event
  deriving DecidableEq, Repr

/-- The state in which `main` enters its first check. -/
def LoopState.init : LoopState := ⟨.RUNNING, 0, []⟩

/-- One step of the poll loop of `main`. While running, the loop makes its
next call of `checkAndNotify`, the first one at once and each later one after
a value received from `ticker.C`, and stops if the call returns `true` (the
`return` after the first check, the `break` in the `for range`). `world i` is
what the network answers during call number `i`. Once stopped, nothing more
happens. The ticker itself is created by `main`, between the first call and
the first tick, and `time.NewTicker` can panic there: see `main`. -/
def pollStep (cfg : Config) (world : Nat → CheckInput) (s : LoopState) : LoopState :=
  match s.phase with
  | .STOPPED => s
  | .RUNNING =>
    let (stop, events) := checkAndNotify cfg (world s.checks)
    { phase := if stop then .STOPPED else .RUNNING
      checks := s.checks + 1
      trace := s.trace ++ (if s.checks = 0 then [] else [Event.tick]) ++ events }

/-- How a run of `main` stands after a bounded number of ticks. -/
inductive Outcome where
  /-- `log.Fatalf`: the process exits with status 1. -/
  | fatal (err : GoError)
  /-- The function `main` returned: the process exits with status 0. -/
  | returned
  /-- `time.NewTicker` panicked on a non-positive interval. -/
  | panicked
  /-- The loop is still waiting for its next tick. -/
  | polling
  deriving DecidableEq, Repr

/-- The three lines `main` logs once the configuration is loaded. -/
def startupLog (cfg : Config) : List Event :=
  [Event.log "Avvio del controllo del cambio %s/%s con notifiche su Telegram..."
      [.val (.str cfg.BaseCurrency), .val (.str cfg.TargetCurrency)],
    Event.log "Soglia impostata: > %.4f %s"
      [.val (.float cfg.NotificationThreshold), .val (.str cfg.TargetCurrency)],
    Event.log "Intervallo di controllo: %v" [.val (.duration cfg.CheckInterval)]]

/-- The function `main` of `main.go`, observed for `ticks` values of
`ticker.C`: how the run stands and the events so far. A configuration error is
fatal; the first check is made at once; `time.NewTicker` panics on an interval
that is not positive; then one check follows each tick until one says stop. -/
def main (env : Env) (world : Nat → CheckInput) (ticks : Nat) : Outcome × List Event :=
  match loadConfig env with
  | .error err => (.fatal err, [.log "Errore di configurazione: %v" [.err err]])
  | .ok cfg =>
    let first := pollStep cfg world LoopState.init
    match first.phase with
    | .STOPPED => (.returned, startupLog cfg ++ first.trace)
    | .RUNNING =>
      if cfg.CheckInterval ≤ 0 then (.panicked, startupLog cfg ++ first.trace)
      else
        let s := (pollStep cfg world)^[ticks] first
        match s.phase with
        | .STOPPED => (.returned, startupLog cfg ++ s.trace)
        | .RUNNING => (.polling, startupLog cfg ++ s.trace)

/-! ## Concrete inputs -/

/-- The environment that sets exactly the listed variables. -/
def envOf (vars : List (String × String)) : Env := fun key => vars.lookup key

/-- The four required variables, as in the scenario of the specification. -/
def requiredVars : List (String × String) :=
  [("API_KEY", "key"), ("TELEGRAM_TOKEN", "token"), ("TELEGRAM_CHAT_ID", "42"),
    ("NOTIFICATION_THRESHOLD", "1.20")]

/-- The configuration of the scenario: threshold 1.20, every 15 minutes, GBP to EUR. -/
def sampleConfig : Config :=
  { ApiKey := "key", TelegramToken := "token", TelegramChatID := "42",
    NotificationThreshold := ⟨0x3FF3333333333333⟩, CheckInterval := 900000000000,
    BaseCurrency := "GBP", TargetCurrency := "EUR" }

/-- The configuration of the scenario with CHECK_INTERVAL_MINUTES set to "1". -/
def minuteConfig : Config := { sampleConfig with CheckInterval := 60000000000 }

/-- The configuration of the scenario with CHECK_INTERVAL_MINUTES set to "0". -/
def zeroConfig : Config := { sampleConfig with CheckInterval := 0 }

/-- The decoded response `{"result":"success","conversion_rates":{"EUR":rate}}`. -/
def successResponse (rate : Float64) : ApiResponse :=
  { Result := "success", ConversionRates := some [("EUR", rate)], ErrorType := "" }

/-- The `float64` 1.25. -/
def f1_25 : Float64 := ⟨0x3FF4000000000000⟩

/-- The `float64` nearest to 1.10. -/
def f1_10 : Float64 := ⟨0x3FF199999999999A⟩

/-- The decoded response `{"result":"error","error-type":"invalid-key"}`. -/
def invalidKeyResponse : ApiResponse :=
  { Result := "error", ConversionRates := none, ErrorType := "invalid-key" }

/-- A response that reports an error and still carries a rate of 1.25 for EUR. -/
def errorWithRates : ApiResponse :=
  { Result := "error", ConversionRates := some [("EUR", f1_25)], ErrorType := "invalid-key" }

/-- The decoded response `{"result":"success"}`: no `conversion_rates` at all. -/
def noRatesResponse : ApiResponse :=
  { Result := "success", ConversionRates := none, ErrorType := "" }

/-- The decoded response `{"result":"success","conversion_rates":{"USD":1.25}}`. -/
def otherCurrencyResponse : ApiResponse :=
  { Result := "success", ConversionRates := some [("USD", f1_25)], ErrorType := "" }

/-- The notification request fails at transport level. -/
def postTimeout : PostResult := .failed (.external "context deadline exceeded")

/-- The names of the four required variables, in the order `loadConfig` reads them. -/
def requiredNames : List String :=
  ["API_KEY", "TELEGRAM_TOKEN", "TELEGRAM_CHAT_ID", "NOTIFICATION_THRESHOLD"]

/-- The environment of the scenario with `NOTIFICATION_THRESHOLD` set to `threshold`. -/
def envWithThreshold (threshold : String) : Env :=
  envOf [("API_KEY", "key"), ("TELEGRAM_TOKEN", "token"), ("TELEGRAM_CHAT_ID", "42"),
    ("NOTIFICATION_THRESHOLD", threshold)]

/-- The environment of the scenario with `CHECK_INTERVAL_MINUTES` set to `minutes`. -/
def envWithInterval (minutes : String) : Env :=
  envOf (requiredVars ++ [("CHECK_INTERVAL_MINUTES", minutes)])

/-- A network on which every check reads the rate 1.10, below the threshold 1.20. -/
def worldBelow : Nat → CheckInput :=
  fun _ => ⟨.decoded (successResponse f1_10), .response 200 "ok"⟩

/-- A network on which the rate is 1.10 for two checks and 1.25 from the third on. -/
def worldThird : Nat → CheckInput :=
  fun i => ⟨.decoded (successResponse (if i < 2 then f1_10 else f1_25)), .response 200 "ok"⟩

/-! ## The order of `float64` -/

theorem Float64.weight_lt_succ (n : Nat) : Float64.weight n < Float64.weight (n + 1) := by
  unfold Float64.weight
  have hp : (2:Nat) ^ 52 = 4503599627370496 := by norm_num
  rw [hp]
  by_cases hF : n % 4503599627370496 + 1 < 4503599627370496
  · have h1 : (n + 1) / 4503599627370496 = n / 4503599627370496 := by omega
    have h2 : (n + 1) % 4503599627370496 = n % 4503599627370496 + 1 := by omega
    rw [h1, h2]
    split_ifs
    · omega
    · apply Nat.mul_lt_mul_of_pos_right (by omega) (by positivity)
  · have h1 : (n + 1) / 4503599627370496 = n / 4503599627370496 + 1 := by omega
    have h2 : (n + 1) % 4503599627370496 = 0 := by omega
    have h3 : n % 4503599627370496 = 4503599627370495 := by omega
    rw [h1, h2, h3]
    by_cases hE : n / 4503599627370496 = 0
    · simp [hE]
    · simp only [hE, if_false, Nat.succ_ne_zero, add_zero]
      rw [pow_succ]
      have : 0 < 2 ^ (n / 4503599627370496) := by positivity
      nlinarith

theorem Float64.weight_strictMono : StrictMono Float64.weight :=
  strictMono_nat_of_lt_succ Float64.weight_lt_succ

theorem Float64.toRat_eq (f : Float64) (h : f.isFinite = true) :
    f.toRat = (if f.signBit then -1 else 1) * (Float64.weight (f.bits % 2 ^ 63) : ℚ) / 2 ^ 1075 := by
  have hE : f.expField ≠ 2047 := by simpa [Float64.isFinite] using h
  have h1 : f.bits % 2 ^ 63 / 2 ^ 52 = f.expField := by
    unfold Float64.expField; omega
  have h2 : f.bits % 2 ^ 63 % 2 ^ 52 = f.fracField := by
    unfold Float64.fracField; omega
  have hsub : (2 : ℚ) ^ (-1074 : ℤ) = 2 / 2 ^ 1075 := by
    rw [show (-1074 : ℤ) = 1 - 1075 by norm_num, zpow_sub₀ (by norm_num : (2:ℚ) ≠ 0),
      zpow_one, zpow_ofNat]
  have hnorm : (2 : ℚ) ^ ((f.expField : ℤ) - 1075) = 2 ^ f.expField / 2 ^ 1075 := by
    rw [zpow_sub₀ (by norm_num : (2:ℚ) ≠ 0), zpow_natCast, zpow_ofNat]
  unfold Float64.toRat Float64.weight
  rw [h1, h2]
  simp only [hE, if_false]
  by_cases h0 : f.expField = 0
  · simp only [h0, if_true, hsub]
    generalize (2 : ℚ) ^ 1075 = c
    push_cast
    ring
  · simp only [h0, if_false, hnorm]
    generalize (2 : ℚ) ^ 1075 = c
    push_cast
    ring

theorem Float64.weight_zero : Float64.weight 0 = 0 := by simp [Float64.weight]

theorem Float64.key_lt_iff (a b : Float64) (ha : a.isFinite = true) (hb : b.isFinite = true) :
    b.key < a.key ↔ b.toRat < a.toRat := by
  rw [Float64.toRat_eq a ha, Float64.toRat_eq b hb]
  have hc : (0 : ℚ) < 2 ^ 1075 := by positivity
  rw [div_lt_div_iff_of_pos_right hc]
  unfold Float64.key
  have hmono := Float64.weight_strictMono
  have hwa : (0 : ℚ) ≤ Float64.weight (a.bits % 2 ^ 63) := Nat.cast_nonneg _
  have hwb : (0 : ℚ) ≤ Float64.weight (b.bits % 2 ^ 63) := Nat.cast_nonneg _
  have hlt : ∀ m n : Nat, ((Float64.weight m : ℚ) < Float64.weight n) ↔ m < n := by
    intro m n
    rw [Nat.cast_lt]
    exact hmono.lt_iff_lt
  have hpos : ∀ m : Nat, (0 : ℚ) < Float64.weight m ↔ 0 < m := by
    intro m
    have := hlt 0 m
    rwa [Float64.weight_zero, Nat.cast_zero] at this
  cases a.signBit <;> cases b.signBit <;> simp only [if_true, if_false, Bool.false_eq_true]
  · rw [Nat.cast_lt, one_mul, one_mul, hlt]
  · constructor
    · intro h
      have : 0 < a.bits % 2 ^ 63 ∨ 0 < b.bits % 2 ^ 63 := by omega
      rcases this with h' | h'
      · have := (hpos _).2 h'
        linarith
      · have := (hpos _).2 h'
        linarith
    · intro h
      have : 0 < a.bits % 2 ^ 63 ∨ 0 < b.bits % 2 ^ 63 := by
        by_contra hcon
        push_neg at hcon
        have e1 : a.bits % 2 ^ 63 = 0 := by omega
        have e2 : b.bits % 2 ^ 63 = 0 := by omega
        rw [e1, e2, Float64.weight_zero] at h
        simp at h
      omega
  · constructor
    · intro h
      omega
    · intro h
      linarith
  · rw [neg_lt_neg_iff, Nat.cast_lt, neg_one_mul, neg_one_mul, neg_lt_neg_iff, hlt]

/-- Go's `>` on finite values is the strict order of the values. -/
theorem Float64.gt_iff_toRat_lt (a b : Float64) (ha : a.isFinite = true) (hb : b.isFinite = true) :
    a.gt b = true ↔ b.toRat < a.toRat := by
  have hna : a.isNaN = false := by
    simp only [Float64.isFinite, bne_iff_ne, ne_eq] at ha
    simp [Float64.isNaN, ha]
  have hnb : b.isNaN = false := by
    simp only [Float64.isFinite, bne_iff_ne, ne_eq] at hb
    simp [Float64.isNaN, hb]
  unfold Float64.gt
  rw [hna, hnb]
  simp only [Bool.not_false, Bool.true_and, decide_eq_true_eq]
  exact Float64.key_lt_iff a b ha hb

/-! ## Properties of `checkAndNotify` -/

theorem notifications_sendTelegramNotification (cfg : Config) (m : Formatted)
    (post : PostResult) : notifications (sendTelegramNotification cfg m post).2 = 1 := by
  unfold sendTelegramNotification
  cases post with
  | failed err => simp [notifications, Event.isNotification]
  | response c b => by_cases h : c = StatusOK <;> simp [notifications, Event.isNotification, h]

theorem checkAndNotify_above (cfg : Config) (inp : CheckInput) (r : ApiResponse)
    (rate : Float64) (hget : inp.get = .decoded r) (hres : r.Result = "success")
    (hrate : mapIndex r.ConversionRates cfg.TargetCurrency = some rate)
    (habove : rate.gt cfg.NotificationThreshold = true) :
    checkAndNotify cfg inp =
      (true, [Event.httpGet (rateURL cfg)] ++
        [Event.print "[%s] Tasso attuale: 1 %s = %.4f %s\n"
          [.now, .str cfg.BaseCurrency, .float rate, .str cfg.TargetCurrency]] ++
        [Event.log "--- SOGLIA SUPERATA! --- Invio notifica su Telegram..." []] ++
        (sendTelegramNotification cfg (messaggio cfg rate) inp.post).2 ++
        [notifyLog (sendTelegramNotification cfg (messaggio cfg rate) inp.post).1]) := by
  unfold checkAndNotify
  simp only [hget, hres, hrate, habove, ne_eq, not_true_eq_false, if_false, if_true]

theorem checkAndNotify_notAbove (cfg : Config) (inp : CheckInput) (r : ApiResponse)
    (rate : Float64) (hget : inp.get = .decoded r) (hres : r.Result = "success")
    (hrate : mapIndex r.ConversionRates cfg.TargetCurrency = some rate)
    (hbelow : rate.gt cfg.NotificationThreshold = false) :
    checkAndNotify cfg inp =
      (false, [Event.httpGet (rateURL cfg)] ++
        [Event.print "[%s] Tasso attuale: 1 %s = %.4f %s\n"
          [.now, .str cfg.BaseCurrency, .float rate, .str cfg.TargetCurrency]]) := by
  unfold checkAndNotify
  simp [hget, hres, hrate, hbelow]

theorem Float64.gt_irrefl_of_eq (a b : Float64) (h : a.eq b = true) : a.gt b = false := by
  unfold Float64.eq at h
  unfold Float64.gt
  simp only [Bool.and_eq_true, decide_eq_true_eq] at h
  simp [h.2]

/-- C1: on a decoded response with result "success" that holds the rate `rate`
of the target currency, `checkAndNotify` makes a notification request if and
only if `rate > threshold` in the sense of Go's strict comparison of
`float64`; it then makes exactly one, and it makes none when
`rate == threshold`. For finite operands the comparison is the strict order
of the two values. -/
theorem C1_notifies_iff_rate_above_threshold (cfg : Config) (inp : CheckInput)
    (r : ApiResponse) (rate : Float64) (hget : inp.get = .decoded r)
    (hres : r.Result = "success")
    (hrate : mapIndex r.ConversionRates cfg.TargetCurrency = some rate) :
    (0 < notifications (checkAndNotify cfg inp).2 ↔ rate.gt cfg.NotificationThreshold = true) ∧
    (rate.gt cfg.NotificationThreshold = true → notifications (checkAndNotify cfg inp).2 = 1) ∧
    (rate.gt cfg.NotificationThreshold = false → notifications (checkAndNotify cfg inp).2 = 0) ∧
    (rate.eq cfg.NotificationThreshold = true → notifications (checkAndNotify cfg inp).2 = 0) ∧
    (rate.isFinite = true → cfg.NotificationThreshold.isFinite = true →
      (0 < notifications (checkAndNotify cfg inp).2 ↔
        cfg.NotificationThreshold.toRat < rate.toRat)) := by
  have hone : rate.gt cfg.NotificationThreshold = true →
      notifications (checkAndNotify cfg inp).2 = 1 := by
    intro h
    rw [checkAndNotify_above cfg inp r rate hget hres hrate h]
    have := notifications_sendTelegramNotification cfg (messaggio cfg rate) inp.post
    simp only [notifications, List.countP_append] at this ⊢
    rw [this]
    cases (sendTelegramNotification cfg (messaggio cfg rate) inp.post).1 <;>
      simp [notifyLog, Event.isNotification]
  have hzero : rate.gt cfg.NotificationThreshold = false →
      notifications (checkAndNotify cfg inp).2 = 0 := by
    intro h
    rw [checkAndNotify_notAbove cfg inp r rate hget hres hrate h]
    simp [notifications, Event.isNotification]
  have hiff : 0 < notifications (checkAndNotify cfg inp).2 ↔
      rate.gt cfg.NotificationThreshold = true := by
    constructor
    · intro hpos
      by_contra hne
      rw [Bool.not_eq_true] at hne
      rw [hzero hne] at hpos
      exact absurd hpos (by decide)
    · intro h
      rw [hone h]
      decide
  exact ⟨hiff, hone, hzero, fun h => hzero (Float64.gt_irrefl_of_eq _ _ h),
    fun hr ht => hiff.trans (Float64.gt_iff_toRat_lt _ _ hr ht)⟩

/-- C1, on the scenario of the specification: with the threshold 1.20, the
rate 1.25 gives exactly one notification request and the rate 1.10 gives none. -/
theorem C1_witness :
    notifications (checkAndNotify sampleConfig
      ⟨.decoded (successResponse f1_25), .response 200 "ok"⟩).2 = 1 ∧
    notifications (checkAndNotify sampleConfig
      ⟨.decoded (successResponse f1_10), .response 200 "ok"⟩).2 = 0 :=
  ⟨(C1_notifies_iff_rate_above_threshold sampleConfig
      ⟨.decoded (successResponse f1_25), .response 200 "ok"⟩
      (successResponse f1_25) f1_25 rfl rfl (by decide)).2.1 (by decide),
   (C1_notifies_iff_rate_above_threshold sampleConfig
      ⟨.decoded (successResponse f1_10), .response 200 "ok"⟩
      (successResponse f1_10) f1_10 rfl rfl (by decide)).2.2.1 (by decide)⟩

/-- C2: on a successful response whose target rate is above the threshold,
`checkAndNotify` returns `stop = true` whatever `http.PostForm` answered: when
`sendTelegramNotification` returns an error (the request failed, or the status
is not 200), the error is logged and the result is still `true`. -/
theorem C2_stop_whatever_the_notification_outcome (cfg : Config) (inp : CheckInput)
    (r : ApiResponse) (rate : Float64) (hget : inp.get = .decoded r)
    (hres : r.Result = "success")
    (hrate : mapIndex r.ConversionRates cfg.TargetCurrency = some rate)
    (habove : rate.gt cfg.NotificationThreshold = true) :
    (checkAndNotify cfg inp).1 = true ∧
    (∀ err, (sendTelegramNotification cfg (messaggio cfg rate) inp.post).1 = some err →
      Event.log "ERRORE: Impossibile inviare la notifica su Telegram: %v" [.err err]
        ∈ (checkAndNotify cfg inp).2) ∧
    (∀ e, inp.post = .failed e →
      Event.log "ERRORE: Impossibile inviare la notifica su Telegram: %v"
        [.err (.wrap "errore durante l'invio della richiesta a Telegram: %w" e)]
        ∈ (checkAndNotify cfg inp).2) ∧
    (∀ code body, inp.post = .response code body → code ≠ StatusOK →
      Event.log "ERRORE: Impossibile inviare la notifica su Telegram: %v"
        [.err (.errorf "telegram ha restituito un errore (%d): %s" [.int code, .str body])]
        ∈ (checkAndNotify cfg inp).2) := by
  rw [checkAndNotify_above cfg inp r rate hget hres hrate habove]
  have hlog : ∀ err, (sendTelegramNotification cfg (messaggio cfg rate) inp.post).1 = some err →
      Event.log "ERRORE: Impossibile inviare la notifica su Telegram: %v" [.err err]
        ∈ ([Event.httpGet (rateURL cfg)] ++
        [Event.print "[%s] Tasso attuale: 1 %s = %.4f %s\n"
          [.now, .str cfg.BaseCurrency, .float rate, .str cfg.TargetCurrency]] ++
        [Event.log "--- SOGLIA SUPERATA! --- Invio notifica su Telegram..." []] ++
        (sendTelegramNotification cfg (messaggio cfg rate) inp.post).2 ++
        [notifyLog (sendTelegramNotification cfg (messaggio cfg rate) inp.post).1]) := by
    intro err herr
    rw [herr]
    simp [notifyLog]
  refine ⟨rfl, hlog, ?_, ?_⟩
  · intro e he
    apply hlog
    simp [sendTelegramNotification, he]
  · intro code body hpost hcode
    apply hlog
    simp [sendTelegramNotification, hpost, hcode]

/-- C2, on the scenario of the specification: the rate 1.25 is above 1.20, the
notification request times out, and the check still says stop. -/
theorem C2_witness :
    (checkAndNotify sampleConfig ⟨.decoded (successResponse f1_25), postTimeout⟩).1 = true :=
  (C2_stop_whatever_the_notification_outcome sampleConfig
    ⟨.decoded (successResponse f1_25), postTimeout⟩ (successResponse f1_25) f1_25
    rfl rfl (by decide) (by decide)).1

/-- C3: on a decoded response whose result is not exactly "success",
`checkAndNotify` logs the reported error type, makes no notification request
and returns `stop = false`, whatever the response holds as conversion rates. -/
theorem C3_no_notification_unless_success (cfg : Config) (inp : CheckInput)
    (r : ApiResponse) (hget : inp.get = .decoded r) (hres : r.Result ≠ "success") :
    (checkAndNotify cfg inp).1 = false ∧
    notifications (checkAndNotify cfg inp).2 = 0 ∧
    (checkAndNotify cfg inp).2 = [Event.httpGet (rateURL cfg),
      Event.log "L'API di cambio ha restituito un errore: %s" [.val (.str r.ErrorType)]] := by
  unfold checkAndNotify
  simp [hget, hres, notifications, Event.isNotification]

/-- C3, on `{"result":"error","error-type":"invalid-key"}`, and on the same
response carrying a rate of 1.25 for EUR, above the threshold 1.20. -/
theorem C3_witness :
    ((checkAndNotify sampleConfig ⟨.decoded invalidKeyResponse, .response 200 "ok"⟩).1 = false ∧
      notifications
        (checkAndNotify sampleConfig ⟨.decoded invalidKeyResponse, .response 200 "ok"⟩).2 = 0) ∧
    ((checkAndNotify sampleConfig ⟨.decoded errorWithRates, .response 200 "ok"⟩).1 = false ∧
      notifications
        (checkAndNotify sampleConfig ⟨.decoded errorWithRates, .response 200 "ok"⟩).2 = 0) :=
  ⟨⟨(C3_no_notification_unless_success sampleConfig
        ⟨.decoded invalidKeyResponse, .response 200 "ok"⟩ invalidKeyResponse rfl (by decide)).1,
      (C3_no_notification_unless_success sampleConfig
        ⟨.decoded invalidKeyResponse, .response 200 "ok"⟩ invalidKeyResponse rfl (by decide)).2.1⟩,
    ⟨(C3_no_notification_unless_success sampleConfig
        ⟨.decoded errorWithRates, .response 200 "ok"⟩ errorWithRates rfl (by decide)).1,
      (C3_no_notification_unless_success sampleConfig
        ⟨.decoded errorWithRates, .response 200 "ok"⟩ errorWithRates rfl (by decide)).2.1⟩⟩

/-- C4: on a response with result "success" whose conversion rates have no
entry for the target currency (the map may be nil), `checkAndNotify` returns
a result, which is `stop = false`, logs that the currency was not found and
makes no notification request. -/
theorem C4_target_currency_absent (cfg : Config) (inp : CheckInput) (r : ApiResponse)
    (hget : inp.get = .decoded r) (hres : r.Result = "success")
    (habsent : mapIndex r.ConversionRates cfg.TargetCurrency = none) :
    (checkAndNotify cfg inp).1 = false ∧
    notifications (checkAndNotify cfg inp).2 = 0 ∧
    (checkAndNotify cfg inp).2 = [Event.httpGet (rateURL cfg),
      Event.log "Errore: la valuta '%s' non è stata trovata." [.val (.str cfg.TargetCurrency)]] := by
  unfold checkAndNotify
  simp [hget, hres, habsent, notifications, Event.isNotification]

/-- C4, on a response without `conversion_rates` and on one that only holds USD. -/
theorem C4_witness :
    ((checkAndNotify sampleConfig ⟨.decoded noRatesResponse, .response 200 "ok"⟩).1 = false ∧
      notifications
        (checkAndNotify sampleConfig ⟨.decoded noRatesResponse, .response 200 "ok"⟩).2 = 0) ∧
    ((checkAndNotify sampleConfig ⟨.decoded otherCurrencyResponse, .response 200 "ok"⟩).1 = false ∧
      notifications
        (checkAndNotify sampleConfig ⟨.decoded otherCurrencyResponse, .response 200 "ok"⟩).2 = 0) :=
  ⟨⟨(C4_target_currency_absent sampleConfig
        ⟨.decoded noRatesResponse, .response 200 "ok"⟩ noRatesResponse rfl rfl rfl).1,
      (C4_target_currency_absent sampleConfig
        ⟨.decoded noRatesResponse, .response 200 "ok"⟩ noRatesResponse rfl rfl rfl).2.1⟩,
    ⟨(C4_target_currency_absent sampleConfig
        ⟨.decoded otherCurrencyResponse, .response 200 "ok"⟩ otherCurrencyResponse rfl rfl
        (by decide)).1,
      (C4_target_currency_absent sampleConfig
        ⟨.decoded otherCurrencyResponse, .response 200 "ok"⟩ otherCurrencyResponse rfl rfl
        (by decide)).2.1⟩⟩

/-! ## Properties of `sendTelegramNotification` -/

/-- C8, as stated, fails: a response with status 204, which is in 200..299, is
reported as an error. -/
theorem C8_counterexample :
    (sendTelegramNotification sampleConfig (messaggio sampleConfig f1_25)
      (.response 204 "")).1 =
      some (.errorf "telegram ha restituito un errore (%d): %s" [.int 204, .str ""]) := by
  decide

/-- C8, amended: `sendTelegramNotification` returns nil exactly when the
request got a response with status 200; a failed request returns an error
wrapping the cause, and a response with any other status, inside 200..299 or
not, returns an error that carries the status code and the body. -/
theorem C8_success_exactly_on_status_200 (cfg : Config) (message : Formatted) :
    (∀ post, (sendTelegramNotification cfg message post).1 = none ↔
      ∃ body, post = .response StatusOK body) ∧
    (∀ err, (sendTelegramNotification cfg message (.failed err)).1 =
      some (.wrap "errore durante l'invio della richiesta a Telegram: %w" err)) ∧
    (∀ code body, code ≠ StatusOK →
      (sendTelegramNotification cfg message (.response code body)).1 =
        some (.errorf "telegram ha restituito un errore (%d): %s" [.int code, .str body])) := by
  refine ⟨?_, ?_, ?_⟩
  · intro post
    cases post with
    | failed err => simp [sendTelegramNotification]
    | response code body =>
      by_cases h : code = StatusOK <;> simp [sendTelegramNotification, h]
  · intro err
    simp [sendTelegramNotification]
  · intro code body h
    simp [sendTelegramNotification, h]

/-- C8 amended, on the statuses 200, 201 and 500. -/
theorem C8_witness :
    (sendTelegramNotification sampleConfig (messaggio sampleConfig f1_25)
      (.response 200 "ok")).1 = none ∧
    (sendTelegramNotification sampleConfig (messaggio sampleConfig f1_25)
      (.response 201 "created")).1 =
      some (.errorf "telegram ha restituito un errore (%d): %s" [.int 201, .str "created"]) ∧
    (sendTelegramNotification sampleConfig (messaggio sampleConfig f1_25)
      (.response 500 "down")).1 =
      some (.errorf "telegram ha restituito un errore (%d): %s" [.int 500, .str "down"]) :=
  ⟨((C8_success_exactly_on_status_200 sampleConfig (messaggio sampleConfig f1_25)).1
      (.response 200 "ok")).2 ⟨"ok", rfl⟩,
    (C8_success_exactly_on_status_200 sampleConfig (messaggio sampleConfig f1_25)).2.2
      201 "created" (by decide),
    (C8_success_exactly_on_status_200 sampleConfig (messaggio sampleConfig f1_25)).2.2
      500 "down" (by decide)⟩

/-! ## Properties of `loadConfig` -/

theorem atoiDigits_all (s : List Nat) (n m : Nat) (h : atoiDigits s n = some m) :
    s.all isDecimalDigit = true := by
  induction s generalizing n with
  | nil => rfl
  | cons c rest ih =>
    unfold atoiDigits at h
    split_ifs at h with hc
    simp only [List.all_cons, Bool.and_eq_true]
    refine ⟨?_, ih _ h⟩
    simp only [isDecimalDigit, Bool.and_eq_true, decide_eq_true_eq]
    omega

theorem parseUintDigits_all (s0 : String) (s : List Nat) (n m : Nat)
    (h : parseUintDigits s0 s n = .ok m) : s.all isDecimalDigit = true := by
  induction s generalizing n with
  | nil => rfl
  | cons c rest ih =>
    unfold parseUintDigits at h
    split_ifs at h with hc h1 h2
    simp only [List.all_cons, Bool.and_eq_true]
    refine ⟨?_, ih _ h⟩
    simp only [isDecimalDigit, Bool.and_eq_true, decide_eq_true_eq]
    exact hc

theorem integerSyntax_of_signed (c : Nat) (rest s : List Nat)
    (hs : s = if c = 0x2B ∨ c = 0x2D then rest else c :: rest)
    (hne : s ≠ []) (hall : s.all isDecimalDigit = true) :
    integerSyntax (c :: rest) = true := by
  unfold integerSyntax
  by_cases hsign : c = 0x2B ∨ c = 0x2D
  · simp only [hsign, if_true] at hs ⊢
    subst hs
    cases s with
    | nil => exact absurd rfl hne
    | cons d r => simpa using hall
  · simp only [hsign, if_false] at hs ⊢
    subst hs
    exact hall

theorem Atoi_ok_integerSyntax (s : String) (n : Int) (h : Atoi s = .ok n) :
    integerSyntax (goBytes s) = true := by
  unfold Atoi at h
  simp only [] at h
  by_cases hlen : 0 < (goBytes s).length ∧ (goBytes s).length < 19
  · rw [if_pos hlen] at h
    cases hb : goBytes s with
    | nil => rw [hb] at h; cases h
    | cons c rest =>
      rw [hb] at h
      simp only [] at h
      generalize hs : (if c = 0x2D ∨ c = 0x2B then rest else c :: rest) = s1 at h
      have hs1 : s1 = if c = 0x2B ∨ c = 0x2D then rest else c :: rest := by
        rw [← hs]
        by_cases hc : c = 0x2B ∨ c = 0x2D
        · rw [if_pos hc, if_pos hc.symm]
        · rw [if_neg hc, if_neg (fun h => hc h.symm)]
      by_cases hshort : s1.length < 1
      · rw [if_pos hshort] at h
        cases h
      · rw [if_neg hshort] at h
        cases hd : atoiDigits s1 0 with
        | none => rw [hd] at h; cases h
        | some m =>
          apply integerSyntax_of_signed c rest s1 hs1 _ (atoiDigits_all _ _ _ hd)
          intro he
          rw [he] at hshort
          exact hshort (by decide)
  · rw [if_neg hlen] at h
    unfold ParseInt10 at h
    cases hb : goBytes s with
    | nil => rw [hb] at h; cases h
    | cons c rest =>
      rw [hb] at h
      simp only [] at h
      generalize hs : (if c = 0x2B ∨ c = 0x2D then rest else c :: rest) = s1 at h
      cases hu : ParseUint10 s s1 with
      | error e =>
        rw [hu] at h
        simp only [] at h
        by_cases he : e.Err ≠ .ErrRange
        · rw [if_pos he] at h
          cases h
        · rw [if_neg he] at h
          cases h
      | ok un =>
        unfold ParseUint10 at hu
        by_cases hempty : s1 = []
        · rw [if_pos hempty] at hu
          cases hu
        · rw [if_neg hempty] at hu
          exact integerSyntax_of_signed c rest s1 hs.symm hempty (parseUintDigits_all _ _ _ _ hu)

/-- The scenario of the specification: the four required variables alone give
the configuration `sampleConfig`, with the defaults 15 minutes, GBP and EUR. -/
theorem loadConfig_scenario : loadConfig (envOf requiredVars) = .ok sampleConfig := by
  decide

theorem ParseFloat_empty : ParseFloat "" = .error (syntaxError "ParseFloat" "") := by
  decide

theorem loadConfig_of_parsed (env : Env) (t : Float64)
    (hkey : Getenv env "API_KEY" ≠ "") (htoken : Getenv env "TELEGRAM_TOKEN" ≠ "")
    (hchat : Getenv env "TELEGRAM_CHAT_ID" ≠ "")
    (hthr : ParseFloat (Getenv env "NOTIFICATION_THRESHOLD") = .ok t) :
    loadConfig env = .ok {
      ApiKey := Getenv env "API_KEY"
      TelegramToken := Getenv env "TELEGRAM_TOKEN"
      TelegramChatID := Getenv env "TELEGRAM_CHAT_ID"
      NotificationThreshold := t
      CheckInterval := wrapInt64 (wrapInt64 (intervalMinutes env) * Minute)
      BaseCurrency := getEnv env "BASE_CURRENCY" "GBP"
      TargetCurrency := getEnv env "TARGET_CURRENCY" "EUR" } := by
  have hne : Getenv env "NOTIFICATION_THRESHOLD" ≠ "" := by
    intro h
    rw [h, ParseFloat_empty] at hthr
    cases hthr
  unfold loadConfig
  simp only [hkey, htoken, hchat, hne, if_false, hthr]

theorem loadConfig_threshold (env : Env) (cfg : Config) (h : loadConfig env = .ok cfg) :
    ParseFloat (Getenv env "NOTIFICATION_THRESHOLD") = .ok cfg.NotificationThreshold := by
  unfold loadConfig at h
  simp only [] at h
  split_ifs at h
  split at h
  · cases h
  · rename_i t ht
    cases h
    exact ht

theorem main_of_loadConfig_error (env : Env) (err : GoError) (h : loadConfig env = .error err)
    (world : Nat → CheckInput) (ticks : Nat) :
    main env world ticks = (.fatal err, [.log "Errore di configurazione: %v" [.err err]]) := by
  unfold main
  rw [h]

/-- C5: when one of API_KEY, TELEGRAM_TOKEN, TELEGRAM_CHAT_ID and
NOTIFICATION_THRESHOLD is missing (unset, or set to the empty string),
`loadConfig` returns an error whose message names a missing variable, and
`main` ends on that error having made no request to the rate service or to
the messaging service. -/
theorem C5_missing_variable_is_fatal (env : Env)
    (hmissing : ∃ v ∈ requiredNames, Getenv env v = "") :
    ∃ v ∈ requiredNames, Getenv env v = "" ∧
      loadConfig env =
        .error (.errorf ("la variabile d'ambiente " ++ v ++ " non è impostata") []) ∧
      ∀ (world : Nat → CheckInput) (ticks : Nat),
        (main env world ticks).1 =
          .fatal (.errorf ("la variabile d'ambiente " ++ v ++ " non è impostata") []) ∧
        rateRequests (main env world ticks).2 = 0 ∧
        notifications (main env world ticks).2 = 0 := by
  have key : ∃ v ∈ requiredNames, Getenv env v = "" ∧
      loadConfig env =
        .error (.errorf ("la variabile d'ambiente " ++ v ++ " non è impostata") []) := by
    by_cases h1 : Getenv env "API_KEY" = ""
    · refine ⟨"API_KEY", by decide, h1, ?_⟩
      unfold loadConfig
      simp only [h1, if_true]
      rfl
    by_cases h2 : Getenv env "TELEGRAM_TOKEN" = ""
    · refine ⟨"TELEGRAM_TOKEN", by decide, h2, ?_⟩
      unfold loadConfig
      simp only [h1, h2, if_true, if_false]
      rfl
    by_cases h3 : Getenv env "TELEGRAM_CHAT_ID" = ""
    · refine ⟨"TELEGRAM_CHAT_ID", by decide, h3, ?_⟩
      unfold loadConfig
      simp only [h1, h2, h3, if_true, if_false]
      rfl
    have h4 : Getenv env "NOTIFICATION_THRESHOLD" = "" := by
      obtain ⟨v, hv, hempty⟩ := hmissing
      simp only [requiredNames, List.mem_cons, List.mem_singleton, List.not_mem_nil,
        or_false] at hv
      rcases hv with rfl | rfl | rfl | rfl
      · exact absurd hempty h1
      · exact absurd hempty h2
      · exact absurd hempty h3
      · exact hempty
    refine ⟨"NOTIFICATION_THRESHOLD", by decide, h4, ?_⟩
    unfold loadConfig
    simp only [h1, h2, h3, h4, if_true, if_false]
    rfl
  obtain ⟨v, hv, hempty, hload⟩ := key
  refine ⟨v, hv, hempty, hload, ?_⟩
  intro world ticks
  rw [main_of_loadConfig_error env _ hload world ticks]
  simp [rateRequests, notifications, Event.isRateRequest, Event.isNotification]

/-- C5, on an environment that sets only API_KEY and TELEGRAM_TOKEN. -/
theorem C5_witness :
    ∃ v ∈ requiredNames,
      Getenv (envOf [("API_KEY", "key"), ("TELEGRAM_TOKEN", "token")]) v = "" ∧
      loadConfig (envOf [("API_KEY", "key"), ("TELEGRAM_TOKEN", "token")]) =
        .error (.errorf ("la variabile d'ambiente " ++ v ++ " non è impostata") []) ∧
      ∀ (world : Nat → CheckInput) (ticks : Nat),
        (main (envOf [("API_KEY", "key"), ("TELEGRAM_TOKEN", "token")]) world ticks).1 =
          .fatal (.errorf ("la variabile d'ambiente " ++ v ++ " non è impostata") []) ∧
        rateRequests
          (main (envOf [("API_KEY", "key"), ("TELEGRAM_TOKEN", "token")]) world ticks).2 = 0 ∧
        notifications
          (main (envOf [("API_KEY", "key"), ("TELEGRAM_TOKEN", "token")]) world ticks).2 = 0 :=
  C5_missing_variable_is_fatal (envOf [("API_KEY", "key"), ("TELEGRAM_TOKEN", "token")])
    ⟨"TELEGRAM_CHAT_ID", by decide, by decide⟩

/-- C6: when the four required variables are valid (the three credentials are
not empty and NOTIFICATION_THRESHOLD is accepted by `strconv.ParseFloat`),
`loadConfig` succeeds whatever CHECK_INTERVAL_MINUTES is, and the interval is
exactly 15 minutes when that variable is unset, when it is set to a value on
which `strconv.Atoi` returns an error, and in particular when it is set to a
value that is not an optional sign followed by decimal digits. -/
theorem C6_interval_falls_back_to_15_minutes (env : Env) (t : Float64)
    (hkey : Getenv env "API_KEY" ≠ "") (htoken : Getenv env "TELEGRAM_TOKEN" ≠ "")
    (hchat : Getenv env "TELEGRAM_CHAT_ID" ≠ "")
    (hthr : ParseFloat (Getenv env "NOTIFICATION_THRESHOLD") = .ok t) :
    ∃ cfg, loadConfig env = .ok cfg ∧
      (env "CHECK_INTERVAL_MINUTES" = none → cfg.CheckInterval = 15 * Minute) ∧
      (∀ v e, env "CHECK_INTERVAL_MINUTES" = some v → Atoi v = .error e →
        cfg.CheckInterval = 15 * Minute) ∧
      (∀ v, env "CHECK_INTERVAL_MINUTES" = some v → integerSyntax (goBytes v) = false →
        cfg.CheckInterval = 15 * Minute) := by
  have herr : ∀ v e, env "CHECK_INTERVAL_MINUTES" = some v → Atoi v = .error e →
      wrapInt64 (wrapInt64 (intervalMinutes env) * Minute) = 15 * Minute := by
    intro v e hset herr
    have h15 : intervalMinutes env = 15 := by
      unfold intervalMinutes getEnv
      rw [hset]
      simp only [herr]
    rw [h15]
    decide
  refine ⟨_, loadConfig_of_parsed env t hkey htoken hchat hthr, ?_, herr, ?_⟩
  · intro hunset
    have h15 : intervalMinutes env = 15 := by
      unfold intervalMinutes getEnv
      rw [hunset]
      decide
    simp only [h15]
    decide
  · intro v hset hsyntax
    cases hatoi : Atoi v with
    | error e => exact herr v e hset hatoi
    | ok n =>
      rw [Atoi_ok_integerSyntax v n hatoi] at hsyntax
      cases hsyntax

/-- C6, with CHECK_INTERVAL_MINUTES set to "abc": the configuration is the
one of the scenario, 15 minutes included. -/
theorem C6_witness :
    ∃ cfg, loadConfig (envWithInterval "abc") = .ok cfg ∧
      (envWithInterval "abc" "CHECK_INTERVAL_MINUTES" = none →
        cfg.CheckInterval = 15 * Minute) ∧
      (∀ v e, envWithInterval "abc" "CHECK_INTERVAL_MINUTES" = some v → Atoi v = .error e →
        cfg.CheckInterval = 15 * Minute) ∧
      (∀ v, envWithInterval "abc" "CHECK_INTERVAL_MINUTES" = some v →
        integerSyntax (goBytes v) = false → cfg.CheckInterval = 15 * Minute) :=
  C6_interval_falls_back_to_15_minutes (envWithInterval "abc") ⟨0x3FF3333333333333⟩
    (by decide) (by decide) (by decide) (by decide)

theorem roundToFloat64_isFinite (neg : Bool) (num den : Nat)
    (h : (roundToFloat64 neg num den).2 = false) :
    (roundToFloat64 neg num den).1.isFinite = true := by
  unfold roundToFloat64 at h ⊢
  simp only [] at h ⊢
  generalize roundMagnitude num den = mag at h ⊢
  split_ifs at h ⊢ <;>
    first
    | (simp at h; done)
    | (simp only [Float64.isFinite, Float64.expField, bne_iff_ne, ne_eq]; omega)

theorem floatOfDigits_isFinite (r : ReadFloat) (h : (floatOfDigits r).2 = false) :
    (floatOfDigits r).1.isFinite = true := by
  unfold floatOfDigits at h ⊢
  simp only [] at h ⊢
  split_ifs at h ⊢ <;> exact roundToFloat64_isFinite _ _ _ h

theorem ParseFloat_isFinite_or_special (s : String) (f : Float64) (h : ParseFloat s = .ok f) :
    f.isFinite = true ∨ (special (goBytes s)).isSome = true := by
  unfold ParseFloat at h
  simp only [] at h
  split at h
  · right
    rename_i heq
    rw [heq]
    rfl
  · left
    split at h
    · cases h
    · rename_i r hr
      split_ifs at h with hrest hovf
      · cases h
        exact floatOfDigits_isFinite r (by simpa using hovf)

/-- C7, as stated, fails: with NOTIFICATION_THRESHOLD set to "NaN" (or "Inf",
"-Infinity"), `loadConfig` returns a Configuration whose threshold is not a
finite number. -/
theorem C7_counterexample :
    loadConfig (envWithThreshold "NaN") =
      .ok { sampleConfig with NotificationThreshold := Float64.NaN } ∧
    Float64.NaN.isFinite = false ∧
    loadConfig (envWithThreshold "Inf") =
      .ok { sampleConfig with NotificationThreshold := Float64.Inf 1 } ∧
    (Float64.Inf 1).isFinite = false ∧
    loadConfig (envWithThreshold "-Infinity") =
      .ok { sampleConfig with NotificationThreshold := Float64.Inf (-1) } ∧
    (Float64.Inf (-1)).isFinite = false := by
  decide

/-- C7, amended: with the three credentials set, `loadConfig` accepts
NOTIFICATION_THRESHOLD exactly when `strconv.ParseFloat` accepts it. It fails
with a configuration error when `ParseFloat` returns an error; otherwise it
returns a Configuration whose threshold is the value `ParseFloat` returned,
which is finite unless the variable spells an infinity or NaN. -/
theorem C7_threshold_is_what_ParseFloat_accepts (env : Env)
    (hkey : Getenv env "API_KEY" ≠ "") (htoken : Getenv env "TELEGRAM_TOKEN" ≠ "")
    (hchat : Getenv env "TELEGRAM_CHAT_ID" ≠ "") :
    (∀ e, ParseFloat (Getenv env "NOTIFICATION_THRESHOLD") = .error e →
      ∃ err, loadConfig env = .error err) ∧
    (∀ t, ParseFloat (Getenv env "NOTIFICATION_THRESHOLD") = .ok t →
      ∃ cfg, loadConfig env = .ok cfg ∧ cfg.NotificationThreshold = t) ∧
    (∀ cfg, loadConfig env = .ok cfg →
      ParseFloat (Getenv env "NOTIFICATION_THRESHOLD") = .ok cfg.NotificationThreshold ∧
      (cfg.NotificationThreshold.isFinite = true ∨
        (special (goBytes (Getenv env "NOTIFICATION_THRESHOLD"))).isSome = true)) := by
  refine ⟨?_, ?_, ?_⟩
  · intro e he
    cases hload : loadConfig env with
    | error err => exact ⟨err, rfl⟩
    | ok cfg =>
      have := loadConfig_threshold env cfg hload
      rw [he] at this
      cases this
  · intro t ht
    exact ⟨_, loadConfig_of_parsed env t hkey htoken hchat ht, rfl⟩
  · intro cfg hload
    exact ⟨loadConfig_threshold env cfg hload,
      ParseFloat_isFinite_or_special _ _ (loadConfig_threshold env cfg hload)⟩

/-- C7 amended, on the thresholds "abc", rejected as a syntax error, and
"1.20", accepted as the finite number nearest to 1.20. -/
theorem C7_witness :
    (∃ err, loadConfig (envWithThreshold "abc") = .error err) ∧
    (∃ cfg, loadConfig (envWithThreshold "1.20") = .ok cfg ∧
      cfg.NotificationThreshold = ⟨0x3FF3333333333333⟩) :=
  ⟨(C7_threshold_is_what_ParseFloat_accepts (envWithThreshold "abc")
      (by decide) (by decide) (by decide)).1 (syntaxError "ParseFloat" "abc") (by decide),
    (C7_threshold_is_what_ParseFloat_accepts (envWithThreshold "1.20")
      (by decide) (by decide) (by decide)).2.1 ⟨0x3FF3333333333333⟩ (by decide)⟩

/-- C10, at its failing inputs: with CHECK_INTERVAL_MINUTES set to "0",
`loadConfig` succeeds with an interval of zero and `main`, after a first check
that does not stop, panics in `time.NewTicker`; "-3" gives a negative
interval, and "153722868" one that overflows 64 bits into a negative one. -/
theorem C10_nonpositive_interval_panics :
    loadConfig (envWithInterval "0") = .ok { sampleConfig with CheckInterval := 0 } ∧
    (main (envWithInterval "0") worldBelow 3).1 = .panicked ∧
    loadConfig (envWithInterval "-3") =
      .ok { sampleConfig with CheckInterval := -180000000000 } ∧
    (main (envWithInterval "-3") worldBelow 3).1 = .panicked ∧
    loadConfig (envWithInterval "153722868") =
      .ok { sampleConfig with CheckInterval := -9223371993709551616 } ∧
    (main (envWithInterval "153722868") worldBelow 3).1 = .panicked := by
  decide

/-! ## Properties of the poll loop -/

theorem rateRequests_sendTelegramNotification (cfg : Config) (m : Formatted)
    (post : PostResult) : rateRequests (sendTelegramNotification cfg m post).2 = 0 := by
  unfold sendTelegramNotification
  cases post with
  | failed err => simp [rateRequests, Event.isRateRequest]
  | response c b => by_cases h : c = StatusOK <;> simp [rateRequests, Event.isRateRequest, h]

theorem rateRequests_checkAndNotify (cfg : Config) (inp : CheckInput) :
    rateRequests (checkAndNotify cfg inp).2 = 1 := by
  cases hget : inp.get with
  | failed err => simp [checkAndNotify, hget, rateRequests, Event.isRateRequest]
  | undecodable err => simp [checkAndNotify, hget, rateRequests, Event.isRateRequest]
  | decoded r =>
    by_cases hres : r.Result = "success"
    · cases hrate : mapIndex r.ConversionRates cfg.TargetCurrency with
      | none => simp [checkAndNotify, hget, hres, hrate, rateRequests, Event.isRateRequest]
      | some rate =>
        cases habove : rate.gt cfg.NotificationThreshold with
        | false =>
          rw [checkAndNotify_notAbove cfg inp r rate hget hres hrate habove]
          simp [rateRequests, Event.isRateRequest]
        | true =>
          rw [checkAndNotify_above cfg inp r rate hget hres hrate habove]
          have := rateRequests_sendTelegramNotification cfg (messaggio cfg rate) inp.post
          simp only [rateRequests, List.countP_append] at this ⊢
          rw [this]
          cases (sendTelegramNotification cfg (messaggio cfg rate) inp.post).1 <;>
            simp [notifyLog, Event.isRateRequest]
    · simp [checkAndNotify, hget, hres, rateRequests, Event.isRateRequest]

theorem iterate_pollStep_succ (cfg : Config) (world : Nat → CheckInput) (n : Nat) :
    (pollStep cfg world)^[n + 1] LoopState.init =
      pollStep cfg world ((pollStep cfg world)^[n] LoopState.init) :=
  Function.iterate_succ_apply' _ _ _

theorem pollStep_of_stopped (cfg : Config) (world : Nat → CheckInput) (s : LoopState)
    (h : s.phase = .STOPPED) : pollStep cfg world s = s := by
  unfold pollStep
  rw [h]

theorem pollStep_of_running (cfg : Config) (world : Nat → CheckInput) (s : LoopState)
    (h : s.phase = .RUNNING) :
    pollStep cfg world s =
      { phase := if (checkAndNotify cfg (world s.checks)).1 then .STOPPED else .RUNNING
        checks := s.checks + 1
        trace := s.trace ++ (if s.checks = 0 then [] else [Event.tick]) ++
          (checkAndNotify cfg (world s.checks)).2 } := by
  unfold pollStep
  rw [h]

theorem iterate_pollStep_running (cfg : Config) (world : Nat → CheckInput) (n : Nat)
    (h : ∀ i, i < n → (checkAndNotify cfg (world i)).1 = false) :
    ((pollStep cfg world)^[n] LoopState.init).phase = .RUNNING ∧
      ((pollStep cfg world)^[n] LoopState.init).checks = n ∧
      rateRequests ((pollStep cfg world)^[n] LoopState.init).trace = n := by
  induction n with
  | zero => exact ⟨rfl, rfl, rfl⟩
  | succ n ih =>
    obtain ⟨hphase, hchecks, hreq⟩ := ih (fun i hi => h i (Nat.lt_succ_of_lt hi))
    have hn : (checkAndNotify cfg (world n)).1 = false := h n (Nat.lt_succ_self n)
    rw [iterate_pollStep_succ, pollStep_of_running cfg world _ hphase, hchecks]
    refine ⟨by simp [hn], rfl, ?_⟩
    have h1 := rateRequests_checkAndNotify cfg (world n)
    simp only [rateRequests, List.countP_append] at hreq h1 ⊢
    rw [hreq, h1]
    by_cases h0 : n = 0 <;> simp [h0, Event.isRateRequest]

theorem iterate_pollStep_stopped_at (cfg : Config) (world : Nat → CheckInput) (k : Nat)
    (hstop : (checkAndNotify cfg (world k)).1 = true)
    (h : ∀ i, i < k → (checkAndNotify cfg (world i)).1 = false) :
    ((pollStep cfg world)^[k + 1] LoopState.init).phase = .STOPPED ∧
      ((pollStep cfg world)^[k + 1] LoopState.init).checks = k + 1 ∧
      rateRequests ((pollStep cfg world)^[k + 1] LoopState.init).trace = k + 1 := by
  obtain ⟨hphase, hchecks, hreq⟩ := iterate_pollStep_running cfg world k h
  rw [iterate_pollStep_succ, pollStep_of_running cfg world _ hphase, hchecks]
  refine ⟨by simp [hstop], rfl, ?_⟩
  have h1 := rateRequests_checkAndNotify cfg (world k)
  simp only [rateRequests, List.countP_append] at hreq h1 ⊢
  rw [hreq, h1]
  by_cases h0 : k = 0 <;> simp [h0, Event.isRateRequest]

theorem iterate_pollStep_frozen (cfg : Config) (world : Nat → CheckInput) (m : Nat)
    (h : ((pollStep cfg world)^[m] LoopState.init).phase = .STOPPED) (n : Nat) (hn : m ≤ n) :
    (pollStep cfg world)^[n] LoopState.init = (pollStep cfg world)^[m] LoopState.init := by
  induction n, hn using Nat.le_induction with
  | base => rfl
  | succ n _ ih =>
    rw [iterate_pollStep_succ, ih]
    exact pollStep_of_stopped cfg world _ h

theorem rateRequests_startupLog (cfg : Config) (t : List Event) :
    rateRequests (startupLog cfg ++ t) = rateRequests t := by
  simp [rateRequests, startupLog, List.countP_append, List.countP_cons, Event.isRateRequest]

/-- The run of `main` once the configuration is loaded with a positive
interval, so that `time.NewTicker` returns: `main` observed for `ticks` ticks
has made the first check and one check per tick, as long as it is running. -/
theorem main_of_positive_interval (env : Env) (cfg : Config)
    (hload : loadConfig env = .ok cfg) (hpos : 0 < cfg.CheckInterval)
    (world : Nat → CheckInput) (ticks : Nat) :
    main env world ticks =
      (match ((pollStep cfg world)^[ticks + 1] LoopState.init).phase with
        | .STOPPED => .returned
        | .RUNNING => .polling,
        startupLog cfg ++ ((pollStep cfg world)^[ticks + 1] LoopState.init).trace) := by
  have hiter : (pollStep cfg world)^[ticks] (pollStep cfg world LoopState.init) =
      (pollStep cfg world)^[ticks + 1] LoopState.init :=
    (Function.iterate_succ_apply _ _ _).symm
  have hfirst : pollStep cfg world LoopState.init = (pollStep cfg world)^[1] LoopState.init :=
    rfl
  unfold main
  rw [hload]
  simp only []
  cases hphase : (pollStep cfg world LoopState.init).phase with
  | STOPPED =>
    rw [hfirst] at hphase
    have hfrozen :=
      iterate_pollStep_frozen cfg world 1 hphase (ticks + 1) (Nat.le_add_left 1 ticks)
    simp only [hfrozen, hphase, hfirst]
  | RUNNING =>
    simp only [not_le.mpr hpos, if_false, hiter]
    cases ((pollStep cfg world)^[ticks + 1] LoopState.init).phase <;> rfl

/-- With a positive interval, `main` polls until the first check that says
stop: while no check said stop it is still polling after `ticks` ticks, with
`ticks + 1` rate requests made; if check number `k` (counted from 0) is the
first that says stop, `main` has returned from tick `k` on, with exactly
`k + 1` rate requests made. -/
theorem main_polls_until_first_stop (env : Env) (cfg : Config)
    (hload : loadConfig env = .ok cfg) (hpos : 0 < cfg.CheckInterval)
    (world : Nat → CheckInput) :
    (∀ ticks, (∀ i, i < ticks + 1 → (checkAndNotify cfg (world i)).1 = false) →
      (main env world ticks).1 = .polling ∧
      rateRequests (main env world ticks).2 = ticks + 1) ∧
    (∀ k, (checkAndNotify cfg (world k)).1 = true →
      (∀ i, i < k → (checkAndNotify cfg (world i)).1 = false) →
      ∀ ticks, k ≤ ticks →
        (main env world ticks).1 = .returned ∧
        rateRequests (main env world ticks).2 = k + 1) := by
  constructor
  · intro ticks h
    obtain ⟨hphase, _, hreq⟩ := iterate_pollStep_running cfg world (ticks + 1) h
    rw [main_of_positive_interval env cfg hload hpos world ticks, hphase]
    exact ⟨rfl, by rw [rateRequests_startupLog, hreq]⟩
  · intro k hstop h ticks hk
    obtain ⟨hphase, _, hreq⟩ := iterate_pollStep_stopped_at cfg world k hstop h
    have hfrozen := iterate_pollStep_frozen cfg world (k + 1) hphase (ticks + 1)
      (Nat.succ_le_succ hk)
    rw [main_of_positive_interval env cfg hload hpos world ticks, hfrozen, hphase]
    exact ⟨rfl, by rw [rateRequests_startupLog, hreq]⟩

/-- C9, at its failing input: with CHECK_INTERVAL_MINUTES set to "0" the
configuration loads, the first two checks say continue and the third would say
stop, so the first result that signals stop is at position 3; but `main`
makes one check only and panics in `time.NewTicker`: it neither stays RUNNING
nor reaches the third check, however many ticks are waited for. With
CHECK_INTERVAL_MINUTES set to "1" the same network gives the three checks. -/
theorem C9_zero_interval_ends_the_loop_after_one_check :
    loadConfig (envWithInterval "0") = .ok zeroConfig ∧
    ((checkAndNotify zeroConfig (worldThird 0)).1 = false ∧
      (checkAndNotify zeroConfig (worldThird 1)).1 = false ∧
      (checkAndNotify zeroConfig (worldThird 2)).1 = true) ∧
    ((main (envWithInterval "0") worldThird 2).1 = .panicked ∧
      rateRequests (main (envWithInterval "0") worldThird 2).2 = 1) ∧
    ((main (envWithInterval "0") worldThird 10).1 = .panicked ∧
      rateRequests (main (envWithInterval "0") worldThird 10).2 = 1) ∧
    ((main (envWithInterval "1") worldThird 2).1 = .returned ∧
      rateRequests (main (envWithInterval "1") worldThird 2).2 = 3) := by
  decide

end CurrencyWatcher
